import Mathlib

/-!
Verification of the Mode Transition Engine of a distributed master/worker
node controller.  The development shallowly embeds the two controllers:

* the Automatic Engine (`ModeSwitcher` in the source): a polled
  mode-determination function, a deadline-raced transition executor, and
  side-effect sequences per transition direction;
* the Manual Controller (`ManualModeSwitcher` in the source): explicit
  request/confirm/cancel switching, role locking with expiry, and its own
  side-effect sequences.

Side effects that belong to external collaborators (start/stop worker
service, start master services, transfer pending tasks, notify the
coordination service) are modelled as an explicit trace alphabet `Effect`;
each transition function returns the list of effects it performs, in
order.  Probes are modelled as a snapshot `ProbeState` of their readings
at the moment of the call; the clock is an explicit `now : Nat`
parameter.  Exceptions are modelled with `Except String`; stateful
methods that can throw after mutating return the post-state alongside the
`Except` result, so that mutations performed before a throw persist, as
they do in the source.
-/

/-- Node operating role; `NodeMode` in the source. -/
inductive NodeMode
  | active_master
  | standby
  | idle_worker
deriving DecidableEq, Repr

/-- Rendering of a `NodeMode` used inside template-literal strings of the
source (the TypeScript values are the strings themselves). -/
def NodeMode.toStr : NodeMode → String
  | .active_master => "active_master"
  | .standby => "standby"
  | .idle_worker => "idle_worker"

/-- Configuration of the Automatic Engine (`ModeSwitchConfig`). -/
structure ModeSwitchConfig where
  activeThreshold : Nat
  standbyThreshold : Nat
  idleThreshold : Nat
  pollInterval : Nat
  switchTimeout : Nat
deriving DecidableEq, Repr

/-- Default configuration (`DEFAULT_MODE_SWITCH_CONFIG`). -/
def DEFAULT_MODE_SWITCH_CONFIG : ModeSwitchConfig :=
  { activeThreshold := 5 * 60 * 1000
    standbyThreshold := 6 * 60 * 1000
    idleThreshold := 6 * 60 * 1000
    pollInterval := 1000
    switchTimeout := 5000 }

/-- Snapshot of the two probes at one observation: the input-activity
tracker's `getTimeSinceLastInput()` and the processing-state probe's
`isProcessing()` / `getPendingTaskCount()`. -/
structure ProbeState where
  timeSinceLastInput : Nat
  isProcessing : Bool
  pendingTaskCount : Nat
deriving DecidableEq, Repr

/-- Trace alphabet of the external side-effect collaborators invoked
during transitions.  The automatic engine's `transferPendingTasks()`
takes no argument but is invoked to move the observed
`getPendingTaskCount()` tasks; we record that count in the event. -/
inductive Effect
  | startWorkerService
  | stopWorkerService
  | startMasterServices
  | transferPendingTasks (count : Nat)
  | notifyCoordination (event : String) (available : Bool)
deriving DecidableEq, Repr

/-- Notification sent to every registered `ModeChangeListener` (the
source broadcasts one `(oldMode, newMode, reason)` triple to all
listeners via `notifyListeners`). -/
structure Notification where
  oldMode : NodeMode
  newMode : NodeMode
  reason : String
deriving DecidableEq, Repr

/-- Mode determination of the Automatic Engine (`ModeSwitcher.determineMode`):
priority 1 user activity, priority 2 master processing, priority 3 the
standby threshold, else idle worker. -/
def ModeSwitcher.determineMode (config : ModeSwitchConfig) (p : ProbeState) : NodeMode :=
  if p.timeSinceLastInput < config.activeThreshold then
    .active_master
  else if p.isProcessing then
    .active_master
  else if p.timeSinceLastInput < config.standbyThreshold then
    .standby
  else
    .idle_worker

/-- Master-to-worker transition of the Automatic Engine
(`ModeSwitcher.transitionToWorker`): verify no master jobs are running,
start the worker service, notify the coordination service. -/
def ModeSwitcher.transitionToWorker (p : ProbeState) : Except String (List Effect) :=
  if p.isProcessing then
    .error "Cannot switch to worker while master jobs are running"
  else
    .ok [.startWorkerService, .notifyCoordination "worker_available" true]

/-- Worker-to-master transition of the Automatic Engine
(`ModeSwitcher.transitionToMaster`): transfer pending tasks when any
exist, stop the worker service, notify the coordination service. -/
def ModeSwitcher.transitionToMaster (p : ProbeState) : Except String (List Effect) :=
  (if p.pendingTaskCount > 0 then [Effect.transferPendingTasks p.pendingTaskCount] else [])
    ++ [.stopWorkerService, .notifyCoordination "worker_available" false]
  |> .ok

/-- Dispatch of the Automatic Engine's transition work
(`ModeSwitcher.executeModeSwitch`): worker target runs
`transitionToWorker`; master target runs `transitionToMaster` only when
coming from `idle_worker`; standby requires no switching. -/
def ModeSwitcher.executeModeSwitch (p : ProbeState) (oldMode newMode : NodeMode) :
    Except String (List Effect) :=
  if newMode = .idle_worker then
    ModeSwitcher.transitionToWorker p
  else if newMode = .active_master ∧ oldMode = .idle_worker then
    ModeSwitcher.transitionToMaster p
  else
    .ok []

/-- Deadline chosen by `ModeSwitcher.switchMode` for the race against the
transition work.  The method closes over the engine's configuration but
does not read it; we keep the configuration parameter to make that
explicit. -/
def ModeSwitcher.switchTimeoutFor (_config : ModeSwitchConfig)
    (oldMode newMode : NodeMode) : Nat :=
  if newMode = .active_master ∧ oldMode = .idle_worker then 2000 else 5000

/-- Outcome of one `ModeSwitcher.switchMode` call: the committed mode,
the notification broadcast to all listeners, and the effects that ran.
`timerWins` says whether the deadline timer settled before the
transition work (the race's winner depends on real time, so it is a
parameter of the model).  The source's `try/catch` swallows both the
timeout rejection and any transition failure, so the function is total:
no error escapes to the polling loop. -/
def ModeSwitcher.switchMode (config : ModeSwitchConfig) (p : ProbeState)
    (oldMode newMode : NodeMode) (timerWins : Bool) :
    NodeMode × Notification × List Effect :=
  let switchTimeout := ModeSwitcher.switchTimeoutFor config oldMode newMode
  let caught : String → NodeMode × Notification × List Effect := fun errorMessage =>
    (oldMode,
      { oldMode := oldMode, newMode := oldMode
        reason := "Mode switch failed: " ++ errorMessage },
      [])
  if timerWins then
    caught ("Mode switch timeout after " ++ toString switchTimeout ++ "ms")
  else
    match ModeSwitcher.executeModeSwitch p oldMode newMode with
    | .ok effs =>
        (newMode,
          { oldMode := oldMode, newMode := newMode
            reason := "Switched from " ++ oldMode.toStr ++ " to " ++ newMode.toStr },
          effs)
    | .error e => caught e

/-- One poll tick of the Automatic Engine (`ModeSwitcher.checkAndUpdateMode`):
determine the mode and switch when it differs from the current one.
Returns the new current mode and the notification, if any, of this tick.
Total, like `switchMode`: a failed transition never stops the loop. -/
def ModeSwitcher.checkAndUpdateMode (config : ModeSwitchConfig) (p : ProbeState)
    (currentMode : NodeMode) (timerWins : Bool) :
    NodeMode × Option Notification :=
  let newMode := ModeSwitcher.determineMode config p
  if newMode ≠ currentMode then
    let r := ModeSwitcher.switchMode config p currentMode newMode timerWins
    (r.1, some r.2.1)
  else
    (currentMode, none)

/-- Lock state of the Manual Controller (`LockState` in the source). -/
inductive LockState
  | locked
  | unlocked
deriving DecidableEq, Repr

/-- Configuration of the Manual Controller (`ManualModeSwitcherConfig`). -/
structure ManualModeSwitcherConfig where
  requireConfirmation : Bool
  maxLockDuration : Nat
deriving DecidableEq, Repr

/-- Default configuration (`DEFAULT_MANUAL_MODE_CONFIG`). -/
def DEFAULT_MANUAL_MODE_CONFIG : ManualModeSwitcherConfig :=
  { requireConfirmation := false, maxLockDuration := 0 }

/-- Pending confirmation slot of the Manual Controller (the anonymous
`pendingConfirmation` record in the source). -/
structure PendingConfirmation where
  targetMode : NodeMode
  timestamp : Nat
  requestId : String
deriving DecidableEq, Repr

/-- Mutable state of a `ManualModeSwitcher` instance. -/
structure ManualState where
  currentMode : NodeMode
  lockState : LockState
  lockedMode : Option NodeMode
  lockTime : Option Nat
  pendingConfirmation : Option PendingConfirmation
deriving DecidableEq, Repr

/-- State of a freshly constructed `ManualModeSwitcher`. -/
def ManualModeSwitcher.init : ManualState :=
  { currentMode := .active_master
    lockState := .unlocked
    lockedMode := none
    lockTime := none
    pendingConfirmation := none }

/-- Master-target transition of the Manual Controller
(`ManualModeSwitcher.transitionToMaster`): stop the worker service when
coming from `idle_worker`, start master services, notify the
coordination service.  It never fails. -/
def ManualModeSwitcher.transitionToMaster (_p : ProbeState) (fromMode : NodeMode) :
    Except String (List Effect) :=
  (if fromMode = .idle_worker then [Effect.stopWorkerService] else [])
    ++ [.startMasterServices, .notifyCoordination "worker_available" false]
  |> .ok

/-- Worker-target transition of the Manual Controller
(`ManualModeSwitcher.transitionToWorker`): verify no processing, transfer
pending tasks when any exist, start the worker service, notify the
coordination service. -/
def ManualModeSwitcher.transitionToWorker (p : ProbeState) (_fromMode : NodeMode) :
    Except String (List Effect) :=
  if p.isProcessing then
    .error "Master jobs still processing"
  else
    (if p.pendingTaskCount > 0 then [Effect.transferPendingTasks p.pendingTaskCount] else [])
      ++ [.startWorkerService, .notifyCoordination "worker_available" true]
    |> .ok

/-- Standby-target transition of the Manual Controller
(`ManualModeSwitcher.transitionToStandby`): the standby state is passive,
no side effects are performed. -/
def ManualModeSwitcher.transitionToStandby : Except String (List Effect) :=
  .ok []

/-- Switch execution of the Manual Controller
(`ManualModeSwitcher.executeModeSwitch`): re-validate that a worker
switch is not attempted while processing, run the target's transition
logic, commit the role and notify listeners.  On failure the error
propagates to the caller and the role is unchanged; the post-state is
returned alongside the result so that earlier mutations (there are none
in this method before the commit) persist. -/
def ManualModeSwitcher.executeModeSwitch (p : ProbeState) (s : ManualState)
    (newMode : NodeMode) :
    ManualState × Except String (List Effect × Notification) :=
  let oldMode := s.currentMode
  if newMode = .idle_worker ∧ p.isProcessing then
    (s, .error "Cannot switch to worker mode while master jobs are processing")
  else
    let transition : Except String (List Effect) :=
      match newMode with
      | .active_master => ManualModeSwitcher.transitionToMaster p oldMode
      | .idle_worker => ManualModeSwitcher.transitionToWorker p oldMode
      | .standby => ManualModeSwitcher.transitionToStandby
    match transition with
    | .error e => (s, .error e)
    | .ok effs =>
        ({ s with currentMode := newMode },
          .ok (effs,
            { oldMode := oldMode, newMode := newMode
              reason := "Manually switched to " ++ newMode.toStr }))

/-- Lock-conflict error text raised by `requestModeSwitch` (the template
literal interpolates the locked mode; a null `lockedMode` would print as
the string "null"). -/
def ManualModeSwitcher.lockErrorMsg (lockedMode : Option NodeMode) : String :=
  "Mode is locked to "
    ++ (match lockedMode with | some m => m.toStr | none => "null")
    ++ ". Unlock before switching."

/-- Manual switch request (`ManualModeSwitcher.requestModeSwitch`): lock
precondition check, then either queue a pending confirmation (returning
its id) or execute the switch immediately (returning `none`, the
source's `null`).  `now` is the clock reading used for the
confirmation's timestamp. -/
def ManualModeSwitcher.requestModeSwitch (config : ManualModeSwitcherConfig)
    (p : ProbeState) (s : ManualState) (now : Nat)
    (targetMode : NodeMode) (requestId : String) :
    ManualState × Except String (Option String) :=
  if s.lockState = .locked ∧ s.lockedMode ≠ some targetMode then
    (s, .error (ManualModeSwitcher.lockErrorMsg s.lockedMode))
  else if config.requireConfirmation then
    let pc : PendingConfirmation :=
      { targetMode := targetMode, timestamp := now, requestId := requestId }
    ({ s with pendingConfirmation := some pc }, .ok (some requestId))
  else
    let r := ManualModeSwitcher.executeModeSwitch p s targetMode
    (r.1, r.2.map fun _ => none)

/-- Confirmation of a pending switch (`ManualModeSwitcher.confirmModeSwitch`):
reject unless a pending confirmation with exactly the given id exists;
on match, clear the pending slot (this mutation persists even when the
subsequent switch execution fails) and execute the switch. -/
def ManualModeSwitcher.confirmModeSwitch (p : ProbeState) (s : ManualState)
    (requestId : String) :
    ManualState × Except String (List Effect × Notification) :=
  match s.pendingConfirmation with
  | none => (s, .error "Invalid or expired request ID")
  | some pc =>
      if pc.requestId = requestId then
        ManualModeSwitcher.executeModeSwitch p
          { s with pendingConfirmation := none } pc.targetMode
      else
        (s, .error "Invalid or expired request ID")

/-- Cancellation of a pending switch (`ManualModeSwitcher.cancelModeSwitch`):
clears the slot iff the id matches, otherwise a silent no-op. -/
def ManualModeSwitcher.cancelModeSwitch (s : ManualState) (requestId : String) :
    ManualState :=
  match s.pendingConfirmation with
  | some pc =>
      if pc.requestId = requestId then { s with pendingConfirmation := none } else s
  | none => s

/-- Role pinning (`ManualModeSwitcher.lockMode`): locks to the given
mode, defaulting to the current one (the source's `mode || this.currentMode`;
`NodeMode` values are non-empty strings, hence truthy), and records the
lock time. -/
def ManualModeSwitcher.lockMode (s : ManualState) (now : Nat)
    (mode : Option NodeMode) : ManualState :=
  { s with
    lockedMode := some (mode.getD s.currentMode)
    lockState := .locked
    lockTime := some now }

/-- Unpinning (`ManualModeSwitcher.unlockMode`): clears the lock state
unconditionally. -/
def ManualModeSwitcher.unlockMode (s : ManualState) : ManualState :=
  { s with lockState := .unlocked, lockedMode := none, lockTime := none }

/-- Expiry predicate (`ManualModeSwitcher.isLockExpired`): false when
unlocked, when the guard `!this.lockTime` holds, or when
`maxLockDuration` is 0 (unlimited); otherwise true iff the time elapsed
since `lockTime` exceeds `maxLockDuration`.  The guard is JavaScript
falsiness on the nullable numeric field `lockTime`: it holds when the
field is null and also when it is the number 0, so a lock recorded at
timestamp 0 never expires.  Pure: it takes the state and clock and
returns a Bool, touching nothing. -/
def ManualModeSwitcher.isLockExpired (config : ManualModeSwitcherConfig)
    (s : ManualState) (now : Nat) : Bool :=
  match s.lockState, s.lockTime with
  | .unlocked, _ => false
  | .locked, none => false
  | .locked, some t =>
      if t = 0 ∨ config.maxLockDuration = 0 then false
      else now - t > config.maxLockDuration

/-- Pull-based expiry enforcement (`ManualModeSwitcher.enforceMaxLockDuration`):
unlocks iff `isLockExpired`, otherwise a no-op. -/
def ManualModeSwitcher.enforceMaxLockDuration (config : ManualModeSwitcherConfig)
    (s : ManualState) (now : Nat) : ManualState :=
  if ManualModeSwitcher.isLockExpired config s now then
    ManualModeSwitcher.unlockMode s
  else
    s

/-- Operations callable on a `ManualModeSwitcher` instance, each carrying
the probe snapshot and clock reading observed during the call.  Only the
state-relevant outcome is modelled here; return values are recovered from
the operation functions themselves. -/
inductive ManualOp
  | lockMode (now : Nat) (mode : Option NodeMode)
  | unlockMode
  | enforceMaxLockDuration (now : Nat)
  | requestModeSwitch (p : ProbeState) (now : Nat) (target : NodeMode) (reqId : String)
  | confirmModeSwitch (p : ProbeState) (reqId : String)
  | cancelModeSwitch (reqId : String)
deriving DecidableEq, Repr

/-- State effect of one Manual Controller operation. -/
def ManualOp.apply (cfg : ManualModeSwitcherConfig) (s : ManualState) :
    ManualOp → ManualState
  | .lockMode now mode => ManualModeSwitcher.lockMode s now mode
  | .unlockMode => ManualModeSwitcher.unlockMode s
  | .enforceMaxLockDuration now => ManualModeSwitcher.enforceMaxLockDuration cfg s now
  | .requestModeSwitch p now t reqId =>
      (ManualModeSwitcher.requestModeSwitch cfg p s now t reqId).1
  | .confirmModeSwitch p reqId => (ManualModeSwitcher.confirmModeSwitch p s reqId).1
  | .cancelModeSwitch reqId => ManualModeSwitcher.cancelModeSwitch s reqId

/-- Sequential execution of a list of Manual Controller operations. -/
def ManualModeSwitcher.runOps (cfg : ManualModeSwitcherConfig) (s : ManualState) :
    List ManualOp → ManualState
  | [] => s
  | op :: rest => ManualModeSwitcher.runOps cfg (op.apply cfg s) rest

/-- Lock invariant of the Manual Controller: the lock state is `locked`
exactly when a locked mode is recorded. -/
def LockInv (s : ManualState) : Prop :=
  s.lockState = .locked ↔ s.lockedMode ≠ none

instance (s : ManualState) : Decidable (LockInv s) := by
  unfold LockInv; infer_instance

instance {ε α : Type} [DecidableEq ε] [DecidableEq α] : DecidableEq (Except ε α)
  | .ok a, .ok b =>
      if h : a = b then .isTrue (by rw [h])
      else .isFalse (by intro hc; cases hc; exact h rfl)
  | .ok _, .error _ => .isFalse (by intro hc; cases hc)
  | .error _, .ok _ => .isFalse (by intro hc; cases hc)
  | .error e, .error f =>
      if h : e = f then .isTrue (by rw [h])
      else .isFalse (by intro hc; cases hc; exact h rfl)

/-- Helper: `executeModeSwitch` never touches the lock fields or the
pending slot. -/
theorem ManualModeSwitcher.executeModeSwitch_preserves (p : ProbeState)
    (s : ManualState) (m : NodeMode) :
    (ManualModeSwitcher.executeModeSwitch p s m).1.lockState = s.lockState ∧
    (ManualModeSwitcher.executeModeSwitch p s m).1.lockedMode = s.lockedMode ∧
    (ManualModeSwitcher.executeModeSwitch p s m).1.lockTime = s.lockTime ∧
    (ManualModeSwitcher.executeModeSwitch p s m).1.pendingConfirmation
      = s.pendingConfirmation := by
  unfold ManualModeSwitcher.executeModeSwitch
  split
  · exact ⟨rfl, rfl, rfl, rfl⟩
  · dsimp only
    split <;> exact ⟨rfl, rfl, rfl, rfl⟩

/-- Helper: every single Manual Controller operation preserves the lock
invariant. -/
theorem LockInv.apply (cfg : ManualModeSwitcherConfig) (s : ManualState)
    (op : ManualOp) (h : LockInv s) : LockInv (op.apply cfg s) := by
  cases op with
  | lockMode now mode =>
      simp [ManualOp.apply, ManualModeSwitcher.lockMode, LockInv]
  | unlockMode =>
      simp [ManualOp.apply, ManualModeSwitcher.unlockMode, LockInv]
  | enforceMaxLockDuration now =>
      simp only [ManualOp.apply, ManualModeSwitcher.enforceMaxLockDuration]
      split
      · simp [ManualModeSwitcher.unlockMode, LockInv]
      · exact h
  | requestModeSwitch p now t reqId =>
      simp only [ManualOp.apply, ManualModeSwitcher.requestModeSwitch]
      split
      · exact h
      · split
        · simpa [LockInv] using h
        · have hp := ManualModeSwitcher.executeModeSwitch_preserves p s t
          simpa [LockInv, hp.1, hp.2.1] using h
  | confirmModeSwitch p reqId =>
      simp only [ManualOp.apply, ManualModeSwitcher.confirmModeSwitch]
      cases hpc : s.pendingConfirmation with
      | none => exact h
      | some pc =>
          dsimp only
          split
          · have hp := ManualModeSwitcher.executeModeSwitch_preserves p
              { s with pendingConfirmation := none } pc.targetMode
            simpa [LockInv, hp.1, hp.2.1] using h
          · exact h
  | cancelModeSwitch reqId =>
      simp only [ManualOp.apply, ManualModeSwitcher.cancelModeSwitch]
      cases hpc : s.pendingConfirmation with
      | none => exact h
      | some pc =>
          dsimp only
          split
          · simpa [LockInv] using h
          · exact h

/-- Helper: the lock invariant holds along any run from an invariant
state. -/
theorem LockInv.runOps (cfg : ManualModeSwitcherConfig) (s : ManualState)
    (ops : List ManualOp) (h : LockInv s) :
    LockInv (ManualModeSwitcher.runOps cfg s ops) := by
  induction ops generalizing s with
  | nil => exact h
  | cons op rest ih =>
      exact ih _ (LockInv.apply cfg s op h)

/-- C1: `determineMode` evaluates in strict priority order: `active_master`
when the input is recent, else `active_master` when the master is
processing, else `standby` under the standby threshold, else
`idle_worker`; in particular a processing master forces `active_master`
no matter how long the input has been idle. -/
theorem C1_determineMode_priority (config : ModeSwitchConfig) (p : ProbeState) :
    (p.timeSinceLastInput < config.activeThreshold →
      ModeSwitcher.determineMode config p = .active_master) ∧
    (config.activeThreshold ≤ p.timeSinceLastInput → p.isProcessing = true →
      ModeSwitcher.determineMode config p = .active_master) ∧
    (config.activeThreshold ≤ p.timeSinceLastInput → p.isProcessing = false →
      p.timeSinceLastInput < config.standbyThreshold →
      ModeSwitcher.determineMode config p = .standby) ∧
    (config.activeThreshold ≤ p.timeSinceLastInput → p.isProcessing = false →
      config.standbyThreshold ≤ p.timeSinceLastInput →
      ModeSwitcher.determineMode config p = .idle_worker) ∧
    (p.isProcessing = true → ModeSwitcher.determineMode config p = .active_master) := by
  refine ⟨fun h1 => ?_, fun h1 h2 => ?_, fun h1 h2 h3 => ?_, fun h1 h2 h3 => ?_, fun h2 => ?_⟩
  · simp [ModeSwitcher.determineMode, h1]
  · simp [ModeSwitcher.determineMode, Nat.not_lt.mpr h1, h2]
  · simp [ModeSwitcher.determineMode, Nat.not_lt.mpr h1, h2, h3]
  · simp [ModeSwitcher.determineMode, Nat.not_lt.mpr h1, h2, Nat.not_lt.mpr h3]
  · unfold ModeSwitcher.determineMode
    split
    · rfl
    · simp [h2]

/-- Witness for C1: with the default thresholds, ten days of idle time
and a processing master still determine `active_master`. -/
theorem C1_determineMode_priority_witness :
    ModeSwitcher.determineMode DEFAULT_MODE_SWITCH_CONFIG
      { timeSinceLastInput := 864000000, isProcessing := true, pendingTaskCount := 0 }
      = .active_master :=
  (C1_determineMode_priority DEFAULT_MODE_SWITCH_CONFIG
    { timeSinceLastInput := 864000000, isProcessing := true, pendingTaskCount := 0 }).2.2.2.2 rfl

/-- C4: the deadline raced against the transition work is 2000ms exactly
for the `idle_worker → active_master` direction and 5000ms otherwise,
and it never depends on the configured `switchTimeout`. -/
theorem C4_hardcoded_deadline (config : ModeSwitchConfig) (oldMode newMode : NodeMode) :
    ModeSwitcher.switchTimeoutFor config oldMode newMode =
      (if oldMode = .idle_worker ∧ newMode = .active_master then 2000 else 5000) ∧
    (∀ config2 : ModeSwitchConfig,
      ModeSwitcher.switchTimeoutFor config2 oldMode newMode =
        ModeSwitcher.switchTimeoutFor config oldMode newMode) := by
  refine ⟨?_, fun config2 => rfl⟩
  cases oldMode <;> cases newMode <;> rfl

/-- Witness for C4: a configuration with `switchTimeout = 60000` still
yields the 2000ms promotion deadline. -/
theorem C4_hardcoded_deadline_witness :
    ModeSwitcher.switchTimeoutFor
      { activeThreshold := 1, standbyThreshold := 2, idleThreshold := 3
        pollInterval := 4, switchTimeout := 60000 }
      .idle_worker .active_master = 2000 := by
  have h := (C4_hardcoded_deadline
    { activeThreshold := 1, standbyThreshold := 2, idleThreshold := 3
      pollInterval := 4, switchTimeout := 60000 }
    .idle_worker .active_master).1
  rw [h]
  rfl

/-- C3: when the transition work fails or the deadline timer wins the
race, `switchMode` keeps the old mode, broadcasts a notification whose
old and new modes are both the old mode and whose reason carries the
failure text, and returns normally (the source's catch swallows the
error, so in this embedding `switchMode` and the tick are total
functions and the polling loop is never stopped by a failed
transition). -/
theorem C3_failure_is_nonfatal (config : ModeSwitchConfig) (p : ProbeState)
    (oldMode newMode : NodeMode) (timerWins : Bool)
    (hfail : timerWins = true ∨
      ∃ e, ModeSwitcher.executeModeSwitch p oldMode newMode = .error e) :
    (ModeSwitcher.switchMode config p oldMode newMode timerWins).1 = oldMode ∧
    (ModeSwitcher.switchMode config p oldMode newMode timerWins).2.1.oldMode = oldMode ∧
    (ModeSwitcher.switchMode config p oldMode newMode timerWins).2.1.newMode = oldMode ∧
    (∃ msg, (ModeSwitcher.switchMode config p oldMode newMode timerWins).2.1.reason =
      "Mode switch failed: " ++ msg) := by
  rcases hfail with hw | ⟨e, he⟩
  · subst hw
    unfold ModeSwitcher.switchMode
    exact ⟨rfl, rfl, rfl, _, rfl⟩
  · cases timerWins with
    | true =>
        unfold ModeSwitcher.switchMode
        exact ⟨rfl, rfl, rfl, _, rfl⟩
    | false =>
        unfold ModeSwitcher.switchMode
        simp only [Bool.false_eq_true, if_false, he]
        exact ⟨trivial, trivial, trivial, e, rfl⟩

/-- Witness for C3: a worker demotion attempted while the master is
processing fails inside the transition work and leaves the mode at
`active_master`. -/
theorem C3_failure_is_nonfatal_witness :
    (ModeSwitcher.switchMode DEFAULT_MODE_SWITCH_CONFIG
        { timeSinceLastInput := 0, isProcessing := true, pendingTaskCount := 0 }
        .active_master .idle_worker false).1 = .active_master ∧
    (ModeSwitcher.switchMode DEFAULT_MODE_SWITCH_CONFIG
        { timeSinceLastInput := 0, isProcessing := true, pendingTaskCount := 0 }
        .active_master .idle_worker false).2.1.newMode = .active_master := by
  have h := C3_failure_is_nonfatal DEFAULT_MODE_SWITCH_CONFIG
    { timeSinceLastInput := 0, isProcessing := true, pendingTaskCount := 0 }
    .active_master .idle_worker false
    (Or.inr ⟨"Cannot switch to worker while master jobs are running", rfl⟩)
  exact ⟨h.1, h.2.2.1⟩

/-- C5: while locked, requesting a role different from the locked one is
rejected with the lock-conflict error, leaving the state (role and
pending slot included) unchanged; requesting the locked role itself
passes the lock check and proceeds to the normal queue-or-execute
logic. -/
theorem C5_locked_request_rejected (config : ManualModeSwitcherConfig)
    (p : ProbeState) (s : ManualState) (now : Nat) (target : NodeMode)
    (reqId : String) (hlock : s.lockState = .locked) :
    (s.lockedMode ≠ some target →
      ManualModeSwitcher.requestModeSwitch config p s now target reqId =
        (s, .error (ManualModeSwitcher.lockErrorMsg s.lockedMode))) ∧
    (s.lockedMode = some target →
      ManualModeSwitcher.requestModeSwitch config p s now target reqId =
        (if config.requireConfirmation then
          ({ s with pendingConfirmation := some ⟨target, now, reqId⟩ },
            .ok (some reqId))
        else
          ((ManualModeSwitcher.executeModeSwitch p s target).1,
            (ManualModeSwitcher.executeModeSwitch p s target).2.map fun _ => none))) := by
  constructor
  · intro hne
    unfold ManualModeSwitcher.requestModeSwitch
    rw [if_pos ⟨hlock, hne⟩]
  · intro heq
    unfold ManualModeSwitcher.requestModeSwitch
    rw [if_neg (by rintro ⟨-, hne⟩; exact hne heq)]

/-- Witness for C5: locked to `standby`, a request for `active_master`
returns the lock-conflict error and leaves the state untouched. -/
theorem C5_locked_request_rejected_witness :
    ManualModeSwitcher.requestModeSwitch DEFAULT_MANUAL_MODE_CONFIG
        { timeSinceLastInput := 0, isProcessing := false, pendingTaskCount := 0 }
        (ManualModeSwitcher.lockMode ManualModeSwitcher.init 0 (some .standby))
        5 .active_master "r1"
      = (ManualModeSwitcher.lockMode ManualModeSwitcher.init 0 (some .standby),
          .error (ManualModeSwitcher.lockErrorMsg
            (ManualModeSwitcher.lockMode ManualModeSwitcher.init 0 (some .standby)).lockedMode)) :=
  (C5_locked_request_rejected DEFAULT_MANUAL_MODE_CONFIG
    { timeSinceLastInput := 0, isProcessing := false, pendingTaskCount := 0 }
    (ManualModeSwitcher.lockMode ManualModeSwitcher.init 0 (some .standby))
    5 .active_master "r1" rfl).1 (by decide)

/-- C6: in every state reachable from a fresh Manual Controller instance
by any sequence of its operations, the lock state is `locked` exactly
when a locked mode is recorded. -/
theorem C6_lock_invariant (config : ManualModeSwitcherConfig) (ops : List ManualOp) :
    (ManualModeSwitcher.runOps config ManualModeSwitcher.init ops).lockState = .locked ↔
      (ManualModeSwitcher.runOps config ManualModeSwitcher.init ops).lockedMode ≠ none :=
  LockInv.runOps config ManualModeSwitcher.init ops (by simp [ManualModeSwitcher.init, LockInv])

/-- Witness for C6: after locking, a rejected request and an unlock, the
invariant instance evaluates as the theorem states. -/
theorem C6_lock_invariant_witness :
    ((ManualModeSwitcher.runOps DEFAULT_MANUAL_MODE_CONFIG ManualModeSwitcher.init
        [ManualOp.lockMode 3 (some .idle_worker),
          ManualOp.requestModeSwitch
            { timeSinceLastInput := 0, isProcessing := false, pendingTaskCount := 0 }
            4 .active_master "r1",
          ManualOp.unlockMode]).lockState = .locked ↔
      (ManualModeSwitcher.runOps DEFAULT_MANUAL_MODE_CONFIG ManualModeSwitcher.init
        [ManualOp.lockMode 3 (some .idle_worker),
          ManualOp.requestModeSwitch
            { timeSinceLastInput := 0, isProcessing := false, pendingTaskCount := 0 }
            4 .active_master "r1",
          ManualOp.unlockMode]).lockedMode ≠ none) :=
  C6_lock_invariant DEFAULT_MANUAL_MODE_CONFIG
    [ManualOp.lockMode 3 (some .idle_worker),
      ManualOp.requestModeSwitch
        { timeSinceLastInput := 0, isProcessing := false, pendingTaskCount := 0 }
        4 .active_master "r1",
      ManualOp.unlockMode]

/-- C8 counterexample: a lock acquired at clock reading 0 records
`lockTime = 0`, which the source's guard `!this.lockTime` treats as
falsy like null, so the lock never expires: at time 150 with a 100ms
maximum the predicate is false even though the controller is locked and
the elapsed time 150 exceeds the maximum, contradicting the claim's
"true exactly when the elapsed time since lockTime exceeds
maxLockDuration". -/
theorem C8_counterexample :
    (ManualModeSwitcher.lockMode ManualModeSwitcher.init 0
        (some .active_master)).lockState = .locked ∧
    (ManualModeSwitcher.lockMode ManualModeSwitcher.init 0
        (some .active_master)).lockTime = some 0 ∧
    150 - 0 > 100 ∧
    ManualModeSwitcher.isLockExpired
        { requireConfirmation := false, maxLockDuration := 100 }
        (ManualModeSwitcher.lockMode ManualModeSwitcher.init 0 (some .active_master))
        150 = false := by
  decide

/-- C8 (amended): `isLockExpired` is a pure predicate of the state and
clock (in this embedding it returns a `Bool` and nothing else): false
when unlocked, false when `maxLockDuration` is 0 regardless of elapsed
time, and false when the recorded lock time is the falsy timestamp 0;
otherwise true exactly when the elapsed time since `lockTime` exceeds
`maxLockDuration`.  The lock is only released by
`enforceMaxLockDuration` (which unlocks exactly when the predicate
holds) or `unlockMode`; no other operation releases it. -/
theorem C8_isLockExpired_pure (config : ManualModeSwitcherConfig)
    (s : ManualState) (now : Nat) :
    (s.lockState = .unlocked →
      ManualModeSwitcher.isLockExpired config s now = false) ∧
    (config.maxLockDuration = 0 →
      ManualModeSwitcher.isLockExpired config s now = false) ∧
    (s.lockTime = some 0 →
      ManualModeSwitcher.isLockExpired config s now = false) ∧
    (∀ t, s.lockState = .locked → s.lockTime = some t → t ≠ 0 →
      config.maxLockDuration ≠ 0 →
      (ManualModeSwitcher.isLockExpired config s now = true ↔
        now - t > config.maxLockDuration)) ∧
    (ManualModeSwitcher.isLockExpired config s now = true →
      (ManualModeSwitcher.enforceMaxLockDuration config s now).lockState = .unlocked) ∧
    (ManualModeSwitcher.isLockExpired config s now = false →
      ManualModeSwitcher.enforceMaxLockDuration config s now = s) ∧
    (∀ op : ManualOp, s.lockState = .locked →
      (∀ n, op ≠ .unlockMode ∧ op ≠ .enforceMaxLockDuration n) →
      (op.apply config s).lockState = .locked) := by
  refine ⟨?_, ?_, ?_, ?_, ?_, ?_, ?_⟩
  · intro hu
    unfold ManualModeSwitcher.isLockExpired
    rw [hu]
  · intro h0
    unfold ManualModeSwitcher.isLockExpired
    cases hls : s.lockState <;> cases hlt : s.lockTime <;> simp [h0]
  · intro hz
    unfold ManualModeSwitcher.isLockExpired
    rw [hz]
    cases hls : s.lockState <;> simp
  · intro t hl ht htz h0
    unfold ManualModeSwitcher.isLockExpired
    rw [hl, ht]
    simp [htz, h0]
  · intro hexp
    unfold ManualModeSwitcher.enforceMaxLockDuration
    rw [if_pos hexp]
    rfl
  · intro hexp
    unfold ManualModeSwitcher.enforceMaxLockDuration
    rw [hexp]
    simp
  · intro op hl hne
    cases op with
    | lockMode n m => simp [ManualOp.apply, ManualModeSwitcher.lockMode]
    | unlockMode => exact absurd rfl (hne 0).1
    | enforceMaxLockDuration n => exact absurd rfl (hne n).2
    | requestModeSwitch q n t reqId =>
        simp only [ManualOp.apply, ManualModeSwitcher.requestModeSwitch]
        split
        · exact hl
        · split
          · exact hl
          · exact (ManualModeSwitcher.executeModeSwitch_preserves q s t).1.trans hl
    | confirmModeSwitch q reqId =>
        simp only [ManualOp.apply, ManualModeSwitcher.confirmModeSwitch]
        cases hpc : s.pendingConfirmation with
        | none => exact hl
        | some pc =>
            dsimp only
            split
            · exact (ManualModeSwitcher.executeModeSwitch_preserves q
                { s with pendingConfirmation := none } pc.targetMode).1.trans hl
            · exact hl
    | cancelModeSwitch reqId =>
        simp only [ManualOp.apply, ManualModeSwitcher.cancelModeSwitch]
        cases hpc : s.pendingConfirmation with
        | none => exact hl
        | some pc =>
            dsimp only
            split
            · exact hl
            · exact hl

/-- Witness for C8: locked to `active_master` at time 1 (a non-falsy
lock time) with a 100ms maximum, at time 151 the predicate is true
while the state is released only by the enforcement call. -/
theorem C8_isLockExpired_pure_witness :
    ManualModeSwitcher.isLockExpired
        { requireConfirmation := false, maxLockDuration := 100 }
        (ManualModeSwitcher.lockMode ManualModeSwitcher.init 1 (some .active_master))
        151 = true ∧
    (ManualModeSwitcher.enforceMaxLockDuration
        { requireConfirmation := false, maxLockDuration := 100 }
        (ManualModeSwitcher.lockMode ManualModeSwitcher.init 1 (some .active_master))
        151).lockState = .unlocked := by
  have h := C8_isLockExpired_pure
    { requireConfirmation := false, maxLockDuration := 100 }
    (ManualModeSwitcher.lockMode ManualModeSwitcher.init 1 (some .active_master)) 151
  have h1 := (h.2.2.2.1 1 rfl rfl (by decide) (by decide)).mpr (by decide)
  exact ⟨h1, h.2.2.2.2.1 h1⟩

/-- Helper: evaluation of the manual switch execution at a master
target. -/
theorem ManualModeSwitcher.executeModeSwitch_master (p : ProbeState) (s : ManualState) :
    ManualModeSwitcher.executeModeSwitch p s .active_master =
      ({ s with currentMode := .active_master },
        .ok ((if s.currentMode = .idle_worker then [Effect.stopWorkerService] else [])
            ++ [.startMasterServices, .notifyCoordination "worker_available" false],
          { oldMode := s.currentMode, newMode := .active_master
            reason := "Manually switched to " ++ NodeMode.toStr .active_master })) := by
  unfold ManualModeSwitcher.executeModeSwitch ManualModeSwitcher.transitionToMaster
  simp

/-- Helper: evaluation of the manual switch execution at a standby
target. -/
theorem ManualModeSwitcher.executeModeSwitch_standby (p : ProbeState) (s : ManualState) :
    ManualModeSwitcher.executeModeSwitch p s .standby =
      ({ s with currentMode := .standby },
        .ok ([],
          { oldMode := s.currentMode, newMode := .standby
            reason := "Manually switched to " ++ NodeMode.toStr .standby })) := by
  unfold ManualModeSwitcher.executeModeSwitch ManualModeSwitcher.transitionToStandby
  simp

/-- Helper: the manual switch execution rejects a worker target while
the master is processing. -/
theorem ManualModeSwitcher.executeModeSwitch_worker_busy (p : ProbeState)
    (s : ManualState) (hp : p.isProcessing = true) :
    ManualModeSwitcher.executeModeSwitch p s .idle_worker =
      (s, .error "Cannot switch to worker mode while master jobs are processing") := by
  unfold ManualModeSwitcher.executeModeSwitch
  simp [hp]

/-- Helper: evaluation of the manual switch execution at a worker target
with no processing in flight. -/
theorem ManualModeSwitcher.executeModeSwitch_worker_idle (p : ProbeState)
    (s : ManualState) (hp : p.isProcessing = false) :
    ManualModeSwitcher.executeModeSwitch p s .idle_worker =
      ({ s with currentMode := .idle_worker },
        .ok ((if p.pendingTaskCount > 0
              then [Effect.transferPendingTasks p.pendingTaskCount] else [])
            ++ [.startWorkerService, .notifyCoordination "worker_available" true],
          { oldMode := s.currentMode, newMode := .idle_worker
            reason := "Manually switched to " ++ NodeMode.toStr .idle_worker })) := by
  unfold ManualModeSwitcher.executeModeSwitch ManualModeSwitcher.transitionToWorker
  simp [hp]

/-- C9: `confirmModeSwitch` performs no lock check: with a matching
pending confirmation whose target differs from the locked mode, it does
not raise a lock-conflict error — it clears the pending slot and hands
over to the switch execution, whose only possible errors are the two
processing-conflict messages. -/
theorem C9_confirm_has_no_lock_check (p : ProbeState) (s : ManualState)
    (pc : PendingConfirmation)
    (hpend : s.pendingConfirmation = some pc)
    (_hlock : s.lockState = .locked)
    (_hne : s.lockedMode ≠ some pc.targetMode) :
    ManualModeSwitcher.confirmModeSwitch p s pc.requestId =
      ManualModeSwitcher.executeModeSwitch p { s with pendingConfirmation := none }
        pc.targetMode ∧
    (ManualModeSwitcher.confirmModeSwitch p s pc.requestId).1.pendingConfirmation
      = none ∧
    (∀ e, (ManualModeSwitcher.confirmModeSwitch p s pc.requestId).2 = .error e →
      e = "Cannot switch to worker mode while master jobs are processing" ∨
      e = "Master jobs still processing") := by
  have h1 : ManualModeSwitcher.confirmModeSwitch p s pc.requestId =
      ManualModeSwitcher.executeModeSwitch p { s with pendingConfirmation := none }
        pc.targetMode := by
    unfold ManualModeSwitcher.confirmModeSwitch
    rw [hpend]
    simp
  refine ⟨h1, ?_, ?_⟩
  · rw [h1]
    exact (ManualModeSwitcher.executeModeSwitch_preserves p _ pc.targetMode).2.2.2
  · intro e he
    rw [h1] at he
    cases htm : pc.targetMode with
    | active_master =>
        rw [htm, ManualModeSwitcher.executeModeSwitch_master] at he
        simp at he
    | standby =>
        rw [htm, ManualModeSwitcher.executeModeSwitch_standby] at he
        simp at he
    | idle_worker =>
        rw [htm] at he
        cases hp : p.isProcessing with
        | true =>
            rw [ManualModeSwitcher.executeModeSwitch_worker_busy _ _ hp] at he
            exact Or.inl (Except.error.inj he).symm
        | false =>
            rw [ManualModeSwitcher.executeModeSwitch_worker_idle _ _ hp] at he
            simp at he

/-- Witness for C9: locked to `active_master` with a queued `standby`
request, confirmation succeeds and clears the pending slot. -/
theorem C9_confirm_has_no_lock_check_witness :
    (ManualModeSwitcher.confirmModeSwitch
        { timeSinceLastInput := 0, isProcessing := false, pendingTaskCount := 0 }
        { currentMode := .active_master, lockState := .locked
          lockedMode := some .active_master, lockTime := some 0
          pendingConfirmation := some ⟨.standby, 0, "r1"⟩ }
        "r1").1.pendingConfirmation = none :=
  (C9_confirm_has_no_lock_check
    { timeSinceLastInput := 0, isProcessing := false, pendingTaskCount := 0 }
    { currentMode := .active_master, lockState := .locked
      lockedMode := some .active_master, lockTime := some 0
      pendingConfirmation := some ⟨.standby, 0, "r1"⟩ }
    ⟨.standby, 0, "r1"⟩ rfl rfl (by decide)).2.1

/-- C10: with confirmation required, a worker-switch request while the
master is processing is not rejected with the still-processing error: it
queues the pending confirmation and returns the request id.  The
rejection is raised only when the switch is executed: at confirmation
time, or at request time when confirmation is not required. -/
theorem C10_processing_checked_at_execution (config : ManualModeSwitcherConfig)
    (p : ProbeState) (s : ManualState) (now : Nat) (reqId : String)
    (hconf : config.requireConfirmation = true)
    (hproc : p.isProcessing = true)
    (hlock : ¬(s.lockState = .locked ∧ s.lockedMode ≠ some .idle_worker)) :
    ManualModeSwitcher.requestModeSwitch config p s now .idle_worker reqId =
      ({ s with pendingConfirmation := some ⟨.idle_worker, now, reqId⟩ },
        .ok (some reqId)) ∧
    (ManualModeSwitcher.confirmModeSwitch p
        { s with pendingConfirmation := some ⟨.idle_worker, now, reqId⟩ } reqId).2 =
      .error "Cannot switch to worker mode while master jobs are processing" ∧
    (∀ config2 : ManualModeSwitcherConfig, config2.requireConfirmation = false →
      (ManualModeSwitcher.requestModeSwitch config2 p s now .idle_worker reqId).2 =
        .error "Cannot switch to worker mode while master jobs are processing") := by
  refine ⟨?_, ?_, ?_⟩
  · unfold ManualModeSwitcher.requestModeSwitch
    rw [if_neg hlock, if_pos hconf]
  · have h2 : ManualModeSwitcher.confirmModeSwitch p
        { s with pendingConfirmation := some ⟨.idle_worker, now, reqId⟩ } reqId =
        ManualModeSwitcher.executeModeSwitch p
          { s with pendingConfirmation := none } .idle_worker := by
      unfold ManualModeSwitcher.confirmModeSwitch
      simp
    rw [h2, ManualModeSwitcher.executeModeSwitch_worker_busy _ _ hproc]
  · intro config2 hc2
    unfold ManualModeSwitcher.requestModeSwitch
    rw [if_neg hlock, if_neg (by simp [hc2]),
      ManualModeSwitcher.executeModeSwitch_worker_busy _ _ hproc]
    rfl

/-- Witness for C10: from a fresh controller with confirmation required
and a processing master, a worker request is queued and its id
returned. -/
theorem C10_processing_checked_at_execution_witness :
    ManualModeSwitcher.requestModeSwitch
        { requireConfirmation := true, maxLockDuration := 0 }
        { timeSinceLastInput := 0, isProcessing := true, pendingTaskCount := 0 }
        ManualModeSwitcher.init 7 .idle_worker "r1" =
      ({ ManualModeSwitcher.init with
          pendingConfirmation := some ⟨.idle_worker, 7, "r1"⟩ },
        .ok (some "r1")) :=
  (C10_processing_checked_at_execution
    { requireConfirmation := true, maxLockDuration := 0 }
    { timeSinceLastInput := 0, isProcessing := true, pendingTaskCount := 0 }
    ManualModeSwitcher.init 7 "r1" rfl rfl (by decide)).1

/-- C7 counterexample: request ids may be supplied by the caller; a
second request that re-uses the first request's id replaces the pending
confirmation, and confirming that first id afterwards succeeds instead
of failing with the invalid-id error. -/
theorem C7_counterexample :
    (ManualModeSwitcher.confirmModeSwitch
        { timeSinceLastInput := 0, isProcessing := false, pendingTaskCount := 0 }
        (ManualModeSwitcher.requestModeSwitch
          { requireConfirmation := true, maxLockDuration := 0 }
          { timeSinceLastInput := 0, isProcessing := false, pendingTaskCount := 0 }
          (ManualModeSwitcher.requestModeSwitch
            { requireConfirmation := true, maxLockDuration := 0 }
            { timeSinceLastInput := 0, isProcessing := false, pendingTaskCount := 0 }
            ManualModeSwitcher.init 0 .active_master "r1").1
          1 .standby "r1").1
        "r1").2
      = .ok ([],
          { oldMode := .active_master, newMode := .standby
            reason := "Manually switched to " ++ NodeMode.toStr .standby }) := by
  rfl

/-- C7 (amended): `confirmModeSwitch` fails with the invalid-id error
and changes nothing unless a pending confirmation with exactly the given
id exists; on a match it clears the pending slot and executes the switch
to the pending target.  After a second request with a different id
replaces the pending confirmation, confirming the first id fails with
that error. -/
theorem C7_confirm_exact_id (p : ProbeState) (s : ManualState) (reqId : String) :
    (s.pendingConfirmation = none →
      ManualModeSwitcher.confirmModeSwitch p s reqId =
        (s, .error "Invalid or expired request ID")) ∧
    (∀ pc : PendingConfirmation, s.pendingConfirmation = some pc →
      pc.requestId ≠ reqId →
      ManualModeSwitcher.confirmModeSwitch p s reqId =
        (s, .error "Invalid or expired request ID")) ∧
    (∀ pc : PendingConfirmation, s.pendingConfirmation = some pc →
      pc.requestId = reqId →
      ManualModeSwitcher.confirmModeSwitch p s reqId =
        ManualModeSwitcher.executeModeSwitch p
          { s with pendingConfirmation := none } pc.targetMode) ∧
    (∀ (config : ManualModeSwitcherConfig) (p2 : ProbeState) (now : Nat)
        (target2 : NodeMode) (reqId2 : String),
      config.requireConfirmation = true → reqId2 ≠ reqId →
      ¬(s.lockState = .locked ∧ s.lockedMode ≠ some target2) →
      ManualModeSwitcher.confirmModeSwitch p
          (ManualModeSwitcher.requestModeSwitch config p2 s now target2 reqId2).1 reqId
        = ((ManualModeSwitcher.requestModeSwitch config p2 s now target2 reqId2).1,
            .error "Invalid or expired request ID")) := by
  refine ⟨?_, ?_, ?_, ?_⟩
  · intro hnone
    unfold ManualModeSwitcher.confirmModeSwitch
    rw [hnone]
  · intro pc hpc hne
    unfold ManualModeSwitcher.confirmModeSwitch
    rw [hpc]
    simp [hne]
  · intro pc hpc heq
    unfold ManualModeSwitcher.confirmModeSwitch
    rw [hpc]
    simp [heq]
  · intro config p2 now target2 reqId2 hc hne hl
    have hreq : (ManualModeSwitcher.requestModeSwitch config p2 s now target2 reqId2).1 =
        { s with pendingConfirmation := some ⟨target2, now, reqId2⟩ } := by
      unfold ManualModeSwitcher.requestModeSwitch
      rw [if_neg hl, if_pos hc]
    rw [hreq]
    unfold ManualModeSwitcher.confirmModeSwitch
    simp [hne]

/-- Witness for C7: after a fresh controller queues a request under id
"r2", confirming the unrelated id "r1" fails with the invalid-id
error. -/
theorem C7_confirm_exact_id_witness :
    ManualModeSwitcher.confirmModeSwitch
        { timeSinceLastInput := 0, isProcessing := false, pendingTaskCount := 0 }
        (ManualModeSwitcher.requestModeSwitch
          { requireConfirmation := true, maxLockDuration := 0 }
          { timeSinceLastInput := 0, isProcessing := false, pendingTaskCount := 0 }
          ManualModeSwitcher.init 1 .standby "r2").1
        "r1"
      = ((ManualModeSwitcher.requestModeSwitch
          { requireConfirmation := true, maxLockDuration := 0 }
          { timeSinceLastInput := 0, isProcessing := false, pendingTaskCount := 0 }
          ManualModeSwitcher.init 1 .standby "r2").1,
          .error "Invalid or expired request ID") :=
  (C7_confirm_exact_id
    { timeSinceLastInput := 0, isProcessing := false, pendingTaskCount := 0 }
    ManualModeSwitcher.init "r1").2.2.2
    { requireConfirmation := true, maxLockDuration := 0 }
    { timeSinceLastInput := 0, isProcessing := false, pendingTaskCount := 0 }
    1 .standby "r2" rfl (by decide) (by decide)

/-- C2 counterexample: promoting `idle_worker → active_master` with 3
pending tasks, the Manual Controller's transition runs (stop worker
service, start master services, notify), not the Automatic Engine's
(transfer pending tasks, stop worker service, notify) for the same
target, so the two side-effect sequences are not the same. -/
theorem C2_counterexample :
    ManualModeSwitcher.transitionToMaster
        { timeSinceLastInput := 0, isProcessing := false, pendingTaskCount := 3 }
        .idle_worker ≠
      ModeSwitcher.transitionToMaster
        { timeSinceLastInput := 0, isProcessing := false, pendingTaskCount := 3 } := by
  decide

/-- C2 (amended): the Manual Controller's side-effect contract is: for a
worker target, verify no processing, transfer pending tasks when the
count is positive, start the worker service, then notify worker
availability true; for a master target, stop the worker service exactly
when coming from `idle_worker`, start master services, then notify
worker availability false, never transferring pending tasks; for
standby, no side effects.  Whenever pending tasks exist these sequences
differ from the Automatic Engine's transition logic in both
directions. -/
theorem C2_manual_side_effect_contract (p : ProbeState) (fromMode : NodeMode) :
    (p.isProcessing = false →
      ManualModeSwitcher.transitionToWorker p fromMode =
        .ok ((if p.pendingTaskCount > 0
              then [Effect.transferPendingTasks p.pendingTaskCount] else [])
            ++ [.startWorkerService, .notifyCoordination "worker_available" true])) ∧
    (p.isProcessing = true →
      ManualModeSwitcher.transitionToWorker p fromMode =
        .error "Master jobs still processing") ∧
    (ManualModeSwitcher.transitionToMaster p fromMode =
      .ok ((if fromMode = .idle_worker then [Effect.stopWorkerService] else [])
          ++ [.startMasterServices, .notifyCoordination "worker_available" false])) ∧
    ManualModeSwitcher.transitionToStandby = .ok [] ∧
    (p.pendingTaskCount > 0 →
      ManualModeSwitcher.transitionToMaster p .idle_worker ≠
        ModeSwitcher.transitionToMaster p) ∧
    (p.isProcessing = false → p.pendingTaskCount > 0 →
      ManualModeSwitcher.transitionToWorker p fromMode ≠
        ModeSwitcher.transitionToWorker p) := by
  refine ⟨?_, ?_, rfl, rfl, ?_, ?_⟩
  · intro hp
    unfold ManualModeSwitcher.transitionToWorker
    rw [if_neg (by simp [hp])]
  · intro hp
    unfold ManualModeSwitcher.transitionToWorker
    rw [if_pos hp]
  · intro hct h
    unfold ManualModeSwitcher.transitionToMaster ModeSwitcher.transitionToMaster at h
    rw [if_pos hct] at h
    simp at h
  · intro hp hct h
    unfold ManualModeSwitcher.transitionToWorker ModeSwitcher.transitionToWorker at h
    simp [hp, hct] at h

/-- Witness for C2: with 3 pending tasks and no processing, the Manual
Controller's worker transition transfers the tasks before starting the
worker service. -/
theorem C2_manual_side_effect_contract_witness :
    ManualModeSwitcher.transitionToWorker
        { timeSinceLastInput := 0, isProcessing := false, pendingTaskCount := 3 }
        .active_master =
      .ok [.transferPendingTasks 3, .startWorkerService,
        .notifyCoordination "worker_available" true] := by
  rw [(C2_manual_side_effect_contract
    { timeSinceLastInput := 0, isProcessing := false, pendingTaskCount := 3 }
    .active_master).1 rfl]
  rfl
